import Mathlib

/-!
Verification of the environment-resolution and configuration-isolation core of a
Python SDK for a subprocess-based agent client.

The embedding models Python string-keyed dicts as association lists
(`List (String × String)`, first occurrence of a key wins, mirroring unique-key
dicts), the process environment `os.environ` as an explicit read-only component
of a process-state record, and heap-allocated dict objects (needed to talk about
aliasing and post-construction mutation of per-instance override maps) as cells
in an explicit heap indexed by natural-number references.
-/

set_option autoImplicit false

namespace ClaudeAgentSDK

/-- Content of a Python string-keyed dict: an association list whose first
occurrence of a key is the binding (keys are unique in an actual dict, so
"first wins" is a conservative refinement). -/
abbrev Dict := List (String × String)

/-- Python `key in d`: key membership, independent of the stored value. -/
def dictContains (d : Dict) (k : String) : Bool :=
  d.any (fun p => p.1 == k)

/-- Lookup of the value bound to `k`, `none` when `k` is absent. -/
def dictGet? (d : Dict) (k : String) : Option String :=
  (d.find? (fun p => p.1 == k)).map Prod.snd

/-- Python `d.get(k, dflt)`: total lookup with a fallback value. -/
def dictGetD (d : Dict) (k : String) (dflt : String) : String :=
  (dictGet? d k).getD dflt

/-- Python truthiness of an optional dict: `None` and the empty dict are falsy,
every non-empty dict is truthy.  This is the test the source performs in
`if options_env and key in options_env`. -/
def dictTruthy (o : Option Dict) : Bool :=
  match o with
  | none => false
  | some d => !d.isEmpty

/-- Embedding of `resolve_env` (src/claude_agent_sdk/_internal/env.py).  The
Python body reads the process-global `os.environ`; in the embedding that global
read is made explicit as the `environ` argument, the snapshot of `os.environ`
at call time.

    if options_env and key in options_env:
        return options_env[key]
    return os.environ.get(key, default)
-/
def resolve_env (key : String) (options_env : Option Dict) (environ : Dict)
    (dflt : String) : String :=
  if dictTruthy options_env && dictContains (options_env.getD []) key then
    dictGetD (options_env.getD []) key dflt
  else
    dictGetD environ key dflt

/-- Python dict subscript `d[k]`: returns the value or raises `KeyError`. -/
def dictGetExc (d : Dict) (k : String) : Except String String :=
  match dictGet? d k with
  | some v => Except.ok v
  | none => Except.error "KeyError"

/-- Embedding of `resolve_env` with the fallible dict subscript `options_env[key]`
modelled as raising (`Except.error`) on a missing key, exactly as Python would.
Used to state that resolution never raises. -/
def resolve_env_exc (key : String) (options_env : Option Dict) (environ : Dict)
    (dflt : String) : Except String String :=
  if dictTruthy options_env && dictContains (options_env.getD []) key then
    dictGetExc (options_env.getD []) key
  else
    Except.ok (dictGetD environ key dflt)

/-- Process-wide mutable state visible to `resolve_env` at run time: the
snapshot of `os.environ` plus all other process-wide state (which the function
never touches). -/
structure ProcState where
  environ : Dict
  otherState : List (String × String)

/-- `resolve_env` as the source writes it: three explicit arguments, with the
ambient source obtained from the process state (the embedding of the body's
`os.environ` read). -/
def resolve_env_proc (key : String) (options_env : Option Dict) (dflt : String)
    (s : ProcState) : String :=
  resolve_env key options_env s.environ dflt

/-- Run-time state for the frame property: the per-instance options dict the
caller passed (a mutable object in Python), the environ, and unrelated
process-wide state. -/
structure RunState where
  optionsDict : Option Dict
  environ : Dict
  otherState : List (String × String)

/-- State-threaded embedding of a `resolve_env` call: the result value together
with the state after the call.  Every operation the body performs (dict
truthiness, membership, subscript, `os.environ.get`) is a read, so the state is
returned as built from the same components it was entered with. -/
def resolve_env_run (key dflt : String) (s : RunState) : String × RunState :=
  if dictTruthy s.optionsDict && dictContains (s.optionsDict.getD []) key then
    (dictGetD (s.optionsDict.getD []) key dflt, s)
  else
    (dictGetD s.environ key dflt, s)

/-! Options construction. `ClaudeAgentOptions` itself is not part of the source
under verification (only its tests are), so construction is modelled from the
spec.  To speak about aliasing and post-construction mutation of the
per-instance override map, dict objects live in an explicit heap of cells
addressed by natural numbers. -/

/-- Heap of dict objects.  `alloc` binds content to the address `next` by
consing the new cell in front, so a fresh cell shadows any stale cell at the
same address; `read` finds the first cell at an address. -/
structure Heap where
  cells : List (Nat × Dict)
  next : Nat

/-- Allocate a fresh dict object holding `d`; returns its address and the
grown heap. -/
def Heap.alloc (h : Heap) (d : Dict) : Nat × Heap :=
  (h.next, ⟨(h.next, d) :: h.cells, h.next + 1⟩)

/-- Content of the dict object at address `r` (the empty dict for a dangling
address). -/
def Heap.read (h : Heap) (r : Nat) : Dict :=
  ((h.cells.find? (fun c => c.1 == r)).map Prod.snd).getD []

/-- Bind `k` to `v` inside a single dict's content: overwrite the existing
binding in place, or append a new one. -/
def dictSet (d : Dict) (k v : String) : Dict :=
  if dictContains d k then
    d.map (fun p => if p.1 == k then (k, v) else p)
  else
    d ++ [(k, v)]

/-- Python `heap-object[k] = v`: mutate the dict object at address `r`. -/
def Heap.writeKey (h : Heap) (r : Nat) (k v : String) : Heap :=
  ⟨h.cells.map (fun c => if c.1 == r then (c.1, dictSet c.2 k v) else c), h.next⟩

/-- Copy of a caller-supplied mapping into instance-owned storage: a fresh
association list with the same pairs. -/
def dictCopy (d : Dict) : Dict :=
  d.map (fun p => (p.1, p.2))

/-- Per-client options record (the fields the tests exercise).  `envRef` is the
address of the instance-owned env-override dict object. -/
structure ClaudeAgentOptions where
  api_key : Option String
  base_url : Option String
  isolated : Bool
  envRef : Nat
  max_output_tokens : Option Nat

/-- Process-wide state surrounding options construction: the heap of dict
objects, the ambient environ, and unrelated process state. -/
structure ProcessState where
  heap : Heap
  environ : Dict
  otherState : List (String × String)

/-- Modelled from the spec: `ClaudeAgentOptions.__init__` is not under the
sources being verified (only its tests are).  Per the spec's §4.2, construction
stores each argument with its documented default, deep-copies any
caller-supplied env mapping into instance-owned storage rather than retaining
the caller's reference, and performs no read or write of process-wide ambient
state (all ambient resolution is deferred to subprocess-launch time). -/
def mkClaudeAgentOptions (api_key base_url : Option String) (isolated : Bool)
    (env : Dict) (max_output_tokens : Option Nat) (s : ProcessState) :
    ClaudeAgentOptions × ProcessState :=
  let a := s.heap.alloc (dictCopy env)
  (⟨api_key, base_url, isolated, a.1, max_output_tokens⟩,
   ⟨a.2, s.environ, s.otherState⟩)

/-! Stream-close timeout resolution. `Query.__init__` is not under the sources
being verified (only its tests are), so it is modelled from the spec and the
behaviour its tests pin down. -/

/-- Name of the environment variable holding the stream-close timeout in
milliseconds. -/
def streamCloseTimeoutVar : String := "CLAUDE_CODE_STREAM_CLOSE_TIMEOUT"

/-- Numeric value of a digits-only decimal string. -/
def digitsToNat (cs : List Char) : Nat :=
  cs.foldl (fun n c => n * 10 + (c.toNat - 48)) 0

/-- Parse of a numeric (non-empty, digits-only) string into a natural number of
milliseconds; `none` on a malformed value. -/
def parseMillis? (s : String) : Option Nat :=
  if s.data ≠ [] ∧ s.data.all Char.isDigit then some (digitsToNat s.data) else none

/-- State held by the query/stream-shutdown controller that matters here: the
close timeout in seconds, fixed at construction. -/
structure Query where
  stream_close_timeout : ℚ
deriving DecidableEq

/-- Modelled from the spec: `Query.__init__` is not under the sources being
verified (only its tests are).  Per the tests, the stored close timeout is the
explicit per-call value when one is supplied, otherwise the
`CLAUDE_CODE_STREAM_CLOSE_TIMEOUT` value resolved via `resolve_env` against the
environ snapshot at construction time with default `"60000"`, interpreted as
milliseconds and converted to seconds; a malformed numeric value is the spec's
`InvalidConfigValue` error at the point of use. -/
def queryInit (stream_close_timeout : Option ℚ) (environ : Dict) :
    Except String Query :=
  match stream_close_timeout with
  | some t => Except.ok ⟨t⟩
  | none =>
      match parseMillis? (resolve_env streamCloseTimeoutVar none environ "60000") with
      | some n => Except.ok ⟨(n : ℚ) / 1000⟩
      | none => Except.error "InvalidConfigValue"

/-- Timeout the close sequence waits for: the value stored at construction (it
is not re-resolved when closing begins). -/
def closeTimeoutUsed (q : Query) : ℚ :=
  q.stream_close_timeout

/-- Stated from the claim's words, for comparison with `queryInit`: the close
timeout as it would be if resolution happened at the moment closing begins,
over the environ snapshot at that moment, with the same precedence
explicit → environment-sourced override → 60 seconds. -/
def claimedCloseTimeoutAtClose (explicit : Option ℚ) (environAtClose : Dict) :
    Except String ℚ :=
  match explicit with
  | some t => Except.ok t
  | none =>
      match parseMillis? (resolve_env streamCloseTimeoutVar none environAtClose "60000") with
      | some n => Except.ok ((n : ℚ) / 1000)
      | none => Except.error "InvalidConfigValue"

/-! Helper lemmas about the dict model. -/

theorem dictContains_eq_isSome (d : Dict) (k : String) :
    dictContains d k = (dictGet? d k).isSome := by
  induction d with
  | nil => rfl
  | cons p t ih =>
      by_cases h : p.1 == k <;>
        simp [dictContains, dictGet?, List.find?, h, List.any] at ih ⊢
      simpa [dictContains, dictGet?] using ih

theorem resolve_env_eq_or (key : String) (options_env : Option Dict)
    (environ : Dict) (dflt : String) :
    resolve_env key options_env environ dflt =
      ((options_env.bind fun d => dictGet? d key).or (dictGet? environ key)).getD dflt := by
  match options_env with
  | none => simp [resolve_env, dictTruthy, dictGetD, Option.or]
  | some d =>
      match d with
      | [] => simp [resolve_env, dictTruthy, dictGetD, dictGet?, Option.or]
      | p :: t =>
          rw [resolve_env]
          by_cases h : dictContains (p :: t) key
          · rw [dictContains_eq_isSome] at h
            match hg : dictGet? (p :: t) key with
            | some v =>
                simp [dictTruthy, dictGetD, hg, Option.or,
                  dictContains_eq_isSome, Option.isSome]
            | none => rw [hg] at h; simp at h
          · rw [dictContains_eq_isSome] at h
            match hg : dictGet? (p :: t) key with
            | some v => rw [hg] at h; simp at h
            | none =>
                simp [dictTruthy, dictGetD, hg, Option.or,
                  dictContains_eq_isSome]

theorem resolve_env_exc_eq_ok (key : String) (options_env : Option Dict)
    (environ : Dict) (dflt : String) :
    resolve_env_exc key options_env environ dflt =
      Except.ok (resolve_env key options_env environ dflt) := by
  rw [resolve_env_exc, resolve_env]
  by_cases h : dictTruthy options_env && dictContains (options_env.getD []) key
  · rw [if_pos h, if_pos h]
    have hc : dictContains (options_env.getD []) key := by
      exact (Bool.and_eq_true _ _ |>.mp h).2
    rw [dictContains_eq_isSome] at hc
    match hg : dictGet? (options_env.getD []) key with
    | some v => simp [dictGetExc, dictGetD, hg]
    | none => rw [hg] at hc; simp at hc
  · rw [if_neg h, if_neg h]

theorem Heap.read_writeKey_ne (h : Heap) (r r' : Nat) (k v : String)
    (hne : r' ≠ r) : (h.writeKey r k v).read r' = h.read r' := by
  rw [Heap.writeKey, Heap.read, Heap.read]
  have hfind : ∀ cs : List (Nat × Dict),
      (cs.map (fun c => if c.1 == r then (c.1, dictSet c.2 k v) else c)).find?
          (fun c => c.1 == r') = cs.find? (fun c => c.1 == r') := by
    intro cs
    induction cs with
    | nil => rfl
    | cons c t ih =>
        rw [List.map_cons, List.find?_cons, List.find?_cons]
        by_cases hc : (c.1 == r) = true
        · have hcr : c.1 = r := by simpa using hc
          have hr' : (c.1 == r') = false := by
            simp [hcr]
            exact fun hrr => hne hrr.symm
          rw [if_pos hc]
          simp only [hr']
          exact ih
        · rw [if_neg hc]
          cases hp : c.1 == r'
          · simp only [hp]
            exact ih
          · simp only [hp]
  rw [hfind]

/-! Claim theorems about the Resolver. -/

/-- C1: for every key, override map, ambient map and fallback, `resolve_env`
returns the override map's binding whenever the map is non-null and contains the
key (including a binding to the empty string), otherwise the ambient binding
whenever the ambient map contains the key, otherwise the fallback — stated as
equality with the first-present chain `O[K] → A[K] → D`, where presence is
`dictGet? = some _` (key membership), never value truthiness. -/
theorem resolve_env_precedence (key : String) (options_env : Option Dict)
    (environ : Dict) (dflt : String) :
    resolve_env key options_env environ dflt =
      ((options_env.bind fun d => dictGet? d key).or (dictGet? environ key)).getD dflt :=
  resolve_env_eq_or key options_env environ dflt

/-- C2: the resolver's result depends only on (key, overrides, ambient snapshot,
fallback): two calls against process states that agree on the environ snapshot
return the same value, whatever the rest of the process-wide state holds, and
the call returns a value without producing an updated state (a read-only use of
the snapshot). -/
theorem resolve_env_depends_only_on_args (key : String) (options_env : Option Dict)
    (dflt : String) (s₁ s₂ : ProcState) (h : s₁.environ = s₂.environ) :
    resolve_env_proc key options_env dflt s₁ =
      resolve_env_proc key options_env dflt s₂ := by
  rw [resolve_env_proc, resolve_env_proc, h]

/-- Witness for C2 at concrete inputs: equal environ snapshots, different other
process-wide state, equal results. -/
theorem resolve_env_depends_only_on_args_witness :
    resolve_env_proc "MY_VAR" none "default_val"
        ⟨[("MY_VAR", "from_environ")], [("UNRELATED", "1")]⟩ =
      resolve_env_proc "MY_VAR" none "default_val"
        ⟨[("MY_VAR", "from_environ")], [("UNRELATED", "2")]⟩ :=
  resolve_env_depends_only_on_args "MY_VAR" none "default_val"
    ⟨[("MY_VAR", "from_environ")], [("UNRELATED", "1")]⟩
    ⟨[("MY_VAR", "from_environ")], [("UNRELATED", "2")]⟩ rfl

/-- C3: a null override map and an empty override map are interchangeable for
all inputs. -/
theorem resolve_env_none_eq_empty (key : String) (environ : Dict) (dflt : String) :
    resolve_env key none environ dflt = resolve_env key (some []) environ dflt := rfl

/-- C4: resolution never raises: with the fallible dict subscript modelled as
`Except`, `resolve_env` always returns `Except.ok` of a string, and when the key
is absent from both the override map and the ambient map the returned string is
the caller-supplied fallback (the `getD dflt` of the all-`none` chain). -/
theorem resolve_env_total (key : String) (options_env : Option Dict)
    (environ : Dict) (dflt : String) :
    resolve_env_exc key options_env environ dflt =
      Except.ok (((options_env.bind fun d => dictGet? d key).or
        (dictGet? environ key)).getD dflt) := by
  rw [resolve_env_exc_eq_ok, resolve_env_eq_or]

/-- C5: a `resolve_env` call has no side effects: the state after the call —
the caller's options dict, the environ, and all other process-wide state — is
exactly the state before it, and the returned value agrees with the pure
resolver. -/
theorem resolve_env_no_side_effects (key dflt : String) (s : RunState) :
    (resolve_env_run key dflt s).2 = s ∧
    (resolve_env_run key dflt s).1 = resolve_env key s.optionsDict s.environ dflt := by
  constructor
  · rw [resolve_env_run]; split <;> rfl
  · rw [resolve_env_run, resolve_env]; split <;> simp [*]

/-! Claim theorems about options construction. -/

/-- C6: constructing a `ClaudeAgentOptions` never reads or writes process-wide
ambient state: for any arguments, the environ after construction is exactly the
environ before (same keys, same values), and both the constructed instance and
the heap effect are identical for any two ambient environs and any other
process-wide state. -/
theorem options_construction_no_ambient_access
    (api_key base_url : Option String) (isolated : Bool) (env : Dict)
    (max_output_tokens : Option Nat) (h : Heap) (e e' : Dict)
    (o o' : List (String × String)) :
    (mkClaudeAgentOptions api_key base_url isolated env max_output_tokens
        ⟨h, e, o⟩).2.environ = e ∧
    (mkClaudeAgentOptions api_key base_url isolated env max_output_tokens
        ⟨h, e, o⟩).1 =
      (mkClaudeAgentOptions api_key base_url isolated env max_output_tokens
        ⟨h, e', o'⟩).1 ∧
    (mkClaudeAgentOptions api_key base_url isolated env max_output_tokens
        ⟨h, e, o⟩).2.heap =
      (mkClaudeAgentOptions api_key base_url isolated env max_output_tokens
        ⟨h, e', o'⟩).2.heap :=
  ⟨rfl, rfl, rfl⟩

/-- C7: two independently constructed `ClaudeAgentOptions` instances never
share the backing storage of their env-override maps: their `envRef` addresses
differ, and writing a key through either instance's map leaves the content seen
through the other instance's map unchanged (construction deep-copies the
caller-supplied mapping into a fresh cell). -/
theorem options_instances_independent
    (a₁ b₁ a₂ b₂ : Option String) (i₁ i₂ : Bool) (e₁ e₂ : Dict)
    (m₁ m₂ : Option Nat) (s : ProcessState)
    (o₁ o₂ : ClaudeAgentOptions) (s₁ s₂ : ProcessState) (k v : String)
    (h₁ : mkClaudeAgentOptions a₁ b₁ i₁ e₁ m₁ s = (o₁, s₁))
    (h₂ : mkClaudeAgentOptions a₂ b₂ i₂ e₂ m₂ s₁ = (o₂, s₂)) :
    o₁.envRef ≠ o₂.envRef ∧
    (s₂.heap.writeKey o₁.envRef k v).read o₂.envRef = s₂.heap.read o₂.envRef ∧
    (s₂.heap.writeKey o₂.envRef k v).read o₁.envRef = s₂.heap.read o₁.envRef := by
  have ho₁ : o₁.envRef = s.heap.next :=
    ((congrArg (fun p => (Prod.fst p).envRef) h₁).symm : o₁.envRef = s.heap.next)
  have hs₁ : s₁.heap.next = s.heap.next + 1 :=
    ((congrArg (fun p => (Prod.snd p).heap.next) h₁).symm :
      s₁.heap.next = s.heap.next + 1)
  have ho₂ : o₂.envRef = s₁.heap.next :=
    ((congrArg (fun p => (Prod.fst p).envRef) h₂).symm : o₂.envRef = s₁.heap.next)
  have hne : o₁.envRef ≠ o₂.envRef := by
    rw [ho₁, ho₂, hs₁]
    omega
  exact ⟨hne, Heap.read_writeKey_ne s₂.heap o₁.envRef o₂.envRef k v hne.symm,
    Heap.read_writeKey_ne s₂.heap o₂.envRef o₁.envRef k v hne⟩

/-- Witness for C7 at concrete inputs: two instances built in sequence from an
empty heap, with distinct credentials and env maps, mirroring the test's
`key-instance-1`/`key-instance-2` scenario. -/
theorem options_instances_independent_witness :
    (ClaudeAgentOptions.mk (some "key-instance-1")
        (some "https://api1.example.com") false 0 none).envRef ≠
      (ClaudeAgentOptions.mk (some "key-instance-2")
        (some "https://api2.example.com") false 1 none).envRef ∧
    (Heap.writeKey ⟨[(1, [("E2", "v2")]), (0, [("E1", "v1")])], 2⟩
        (ClaudeAgentOptions.mk (some "key-instance-1")
          (some "https://api1.example.com") false 0 none).envRef "K" "V").read
      (ClaudeAgentOptions.mk (some "key-instance-2")
        (some "https://api2.example.com") false 1 none).envRef =
      Heap.read ⟨[(1, [("E2", "v2")]), (0, [("E1", "v1")])], 2⟩
        (ClaudeAgentOptions.mk (some "key-instance-2")
          (some "https://api2.example.com") false 1 none).envRef ∧
    (Heap.writeKey ⟨[(1, [("E2", "v2")]), (0, [("E1", "v1")])], 2⟩
        (ClaudeAgentOptions.mk (some "key-instance-2")
          (some "https://api2.example.com") false 1 none).envRef "K" "V").read
      (ClaudeAgentOptions.mk (some "key-instance-1")
        (some "https://api1.example.com") false 0 none).envRef =
      Heap.read ⟨[(1, [("E2", "v2")]), (0, [("E1", "v1")])], 2⟩
        (ClaudeAgentOptions.mk (some "key-instance-1")
          (some "https://api1.example.com") false 0 none).envRef :=
  options_instances_independent
    (some "key-instance-1") (some "https://api1.example.com")
    (some "key-instance-2") (some "https://api2.example.com")
    false false [("E1", "v1")] [("E2", "v2")] none none
    ⟨⟨[], 0⟩, [], []⟩
    (ClaudeAgentOptions.mk (some "key-instance-1")
      (some "https://api1.example.com") false 0 none)
    (ClaudeAgentOptions.mk (some "key-instance-2")
      (some "https://api2.example.com") false 1 none)
    ⟨⟨[(0, [("E1", "v1")])], 1⟩, [], []⟩
    ⟨⟨[(1, [("E2", "v2")]), (0, [("E1", "v1")])], 2⟩, [], []⟩
    "K" "V" rfl rfl

/-- C10: an options instance constructed with an explicit credential and a
conflicting `ANTHROPIC_API_KEY` entry in its env mapping stores both values
unreconciled: `api_key` keeps the explicit argument while the instance-owned
env map keeps the mapping's value; no precedence is applied at construction. -/
theorem options_stores_conflicting_credentials (k₁ k₂ : String) (rest : Dict)
    (s : ProcessState) :
    (mkClaudeAgentOptions (some k₁) none false
        (("ANTHROPIC_API_KEY", k₂) :: rest) none s).1.api_key = some k₁ ∧
    dictGet?
      ((mkClaudeAgentOptions (some k₁) none false
          (("ANTHROPIC_API_KEY", k₂) :: rest) none s).2.heap.read
        (mkClaudeAgentOptions (some k₁) none false
          (("ANTHROPIC_API_KEY", k₂) :: rest) none s).1.envRef)
      "ANTHROPIC_API_KEY" = some k₂ := by
  refine ⟨rfl, ?_⟩
  show dictGet?
      (Heap.read ⟨(s.heap.next, dictCopy (("ANTHROPIC_API_KEY", k₂) :: rest))
        :: s.heap.cells, s.heap.next + 1⟩ s.heap.next)
      "ANTHROPIC_API_KEY" = some k₂
  rw [Heap.read]
  rw [List.find?_cons_of_pos _ (by simp)]
  simp [dictCopy, dictGet?, List.find?_cons]

/-! Claim theorems about the stream-close timeout. -/

/-- C8 counterexample: the close timeout is not resolved at the moment closing
begins.  A query constructed while the environ holds
`CLAUDE_CODE_STREAM_CLOSE_TIMEOUT = "90000"` stores and uses 90 seconds even
when, at the moment closing begins, the variable is no longer present — where
the claim's closing-time resolution would give the 60-second default.  (This is
exactly the tests' scenario: the attribute still reads 90.0 after the patched
environ has been restored.) -/
theorem stream_close_timeout_not_resolved_at_close :
    queryInit none [(streamCloseTimeoutVar, "90000")] = Except.ok ⟨90⟩ ∧
    closeTimeoutUsed ⟨90⟩ = 90 ∧
    claimedCloseTimeoutAtClose none [] = Except.ok 60 ∧
    (90 : ℚ) ≠ 60 := by
  refine ⟨?_, rfl, ?_, by norm_num⟩
  · have h1 : parseMillis? (resolve_env streamCloseTimeoutVar none
        [(streamCloseTimeoutVar, "90000")] "60000") = some 90000 := by decide
    rw [queryInit, h1]
    norm_num
  · have h2 : parseMillis? (resolve_env streamCloseTimeoutVar none [] "60000") =
        some 60000 := by decide
    rw [claimedCloseTimeoutAtClose, h2]
    norm_num

/-- C8 amended: the close timeout is resolved once, at controller construction
time, with precedence explicit per-call value → environment-sourced override
(milliseconds over seconds) → compiled-in 60-second default; whenever
construction succeeds and any explicit value supplied is non-negative, the
stored timeout is a (finite) non-negative rational, never absent. -/
theorem stream_close_timeout_precedence (explicit : Option ℚ) (environ : Dict)
    (q : Query) (hq : queryInit explicit environ = Except.ok q)
    (hnn : ∀ t, explicit = some t → 0 ≤ t) :
    (∀ t, explicit = some t → q.stream_close_timeout = t) ∧
    (explicit = none → ∀ s n,
      dictGet? environ streamCloseTimeoutVar = some s → parseMillis? s = some n →
        q.stream_close_timeout = (n : ℚ) / 1000) ∧
    (explicit = none → dictGet? environ streamCloseTimeoutVar = none →
      q.stream_close_timeout = 60) ∧
    0 ≤ q.stream_close_timeout := by
  match hex : explicit with
  | some t =>
      rw [queryInit] at hq
      have hqt : q = ⟨t⟩ := by
        injection hq with h
        exact h.symm
      refine ⟨?_, fun h => Option.noConfusion h, fun h => Option.noConfusion h, ?_⟩
      · intro t' ht'
        injection ht' with h
        rw [hqt]
        exact h
      · rw [hqt]
        exact hnn t rfl
  | none =>
      rw [queryInit] at hq
      have henv : resolve_env streamCloseTimeoutVar none environ "60000" =
          (dictGet? environ streamCloseTimeoutVar).getD "60000" := by
        rw [resolve_env_eq_or]
        rfl
      rw [henv] at hq
      match hg : dictGet? environ streamCloseTimeoutVar with
      | some s =>
          rw [hg, Option.getD_some] at hq
          match hp : parseMillis? s with
          | some n =>
              rw [hp] at hq
              have hqn : q = ⟨(n : ℚ) / 1000⟩ := by
                injection hq with h
                exact h.symm
              refine ⟨fun t ht => Option.noConfusion ht, ?_, ?_, ?_⟩
              · intro _ s' n' hs' hn'
                injection hs' with hss
                subst hss
                rw [hp] at hn'
                injection hn' with hnn'
                subst hnn'
                rw [hqn]
              · intro _ habs
                exact Option.noConfusion habs
              · rw [hqn]
                positivity
          | none =>
              rw [hp] at hq
              exact Except.noConfusion hq
      | none =>
          rw [hg, Option.getD_none] at hq
          have hp : parseMillis? "60000" = some 60000 := by decide
          rw [hp] at hq
          have hqn : q = ⟨(60000 : ℚ) / 1000⟩ := by
            injection hq with h
            exact h.symm
          refine ⟨fun t ht => Option.noConfusion ht, ?_, ?_, ?_⟩
          · intro _ s' n' hs' _
            exact Option.noConfusion hs'
          · intro _ _
            rw [hqn]
            norm_num
          · rw [hqn]
            positivity

/-- Witness for C8 (amended) at concrete inputs: an explicit 30-second value
with an empty environ resolves to a stored timeout of 30, which is
non-negative. -/
theorem stream_close_timeout_precedence_witness :
    0 ≤ Query.stream_close_timeout ⟨30⟩ ∧
    Query.stream_close_timeout ⟨30⟩ = 30 :=
  ⟨(stream_close_timeout_precedence (some 30) [] ⟨30⟩ rfl
      (by intro t ht; cases ht; norm_num)).2.2.2,
   (stream_close_timeout_precedence (some 30) [] ⟨30⟩ rfl
      (by intro t ht; cases ht; norm_num)).1 30 rfl⟩

/-- C9: the stream-close-timeout environment variable is interpreted in
milliseconds and divided by 1000 at resolution time: for every numeric string
value bound to it in the environment source, the stored timeout in seconds is
that number over 1000. -/
theorem stream_timeout_millis_converted (environ : Dict) (s : String) (n : Nat)
    (h₁ : dictGet? environ streamCloseTimeoutVar = some s)
    (h₂ : parseMillis? s = some n) :
    queryInit none environ = Except.ok ⟨(n : ℚ) / 1000⟩ := by
  have henv : resolve_env streamCloseTimeoutVar none environ "60000" = s := by
    rw [resolve_env_eq_or]
    simp [h₁]
  rw [queryInit, henv, h₂]

/-- Witness for C9 at the spec's example: the string `"90000"` resolves to a
stored timeout of 90 seconds. -/
theorem stream_timeout_millis_converted_witness :
    queryInit none [(streamCloseTimeoutVar, "90000")] =
      Except.ok ⟨(90000 : ℚ) / 1000⟩ ∧
    ((90000 : ℚ) / 1000 = 90) :=
  ⟨stream_timeout_millis_converted [(streamCloseTimeoutVar, "90000")] "90000"
      90000 (by decide) (by decide),
   by norm_num⟩

end ClaudeAgentSDK
